import Mathlib

namespace FnDocker

/-! Shallow embedding of `src/api/agent/drivers/docker/cookie.go` (package
`docker` of the fn agent).  Go `uint64` values are natural numbers reduced
mod `2 ^ 64` where overflow matters; Go `int64` fields are `Int` obtained by
two's-complement reinterpretation.  External collaborators (docker client,
image cache, pool and network allocators, image puller) are modelled as
oracles: their outcomes are explicit parameters, and the calls the cookie
makes to them are recorded in explicit traces. -/

/-- Go conversion `int64(x)` applied to a `uint64`-ranged natural number:
two's-complement reinterpretation of `x % 2 ^ 64`. -/
def toInt64 (n : Nat) : Int :=
  if n % 2 ^ 64 < 2 ^ 63 then ((n % 2 ^ 64 : Nat) : Int)
  else ((n % 2 ^ 64 : Nat) : Int) - 2 ^ 64

/-- Go conversion `uint64(x)` applied to an `int64` value. -/
def toUInt64 (i : Int) : Nat :=
  (i % 2 ^ 64).toNat

/-- One `Name=Value` pair of the task's logger configuration tags. -/
structure LoggerTag where
  name : String
  value : String
deriving DecidableEq, Repr

/-- The task's logger configuration (`drivers.LoggerConfig`): a syslog URL and
tag pairs. -/
structure TaskLoggerConfig where
  url : String
  tags : List LoggerTag
deriving DecidableEq, Repr

/-- The task spec, the read-only part of `drivers.ContainerTask` that
`cookie.go` consumes.  The interface declaration itself is not under `src/`;
field types follow the uses in `cookie.go` (`configureULimit` takes `*uint64`)
and, where the use does not determine them, the spec's data model (unsigned
64-bit limits).  `envVars` is the task's environment map `EnvVars()`
represented as an association list with unique keys; the per-run iteration
order over that map is a separate parameter of the configuration pipeline,
because Go leaves map iteration order unspecified. -/
structure ContainerTask where
  image : String
  memory : Nat
  cpus : Nat
  fsSize : Nat
  pids : Nat
  openFiles : Option Nat
  lockedMemory : Option Nat
  pendingSignals : Option Nat
  messageQueue : Option Nat
  tmpFsSize : Nat
  udsDockerPath : String
  udsDockerDest : String
  volumes : List (String × String)
  loggerConf : TaskLoggerConfig
  disableNet : Bool
  workDir : String
  command : String
  envVars : List (String × String)
  id : String
deriving DecidableEq, Repr

/-- The driver configuration fields of `drvCfg` that `cookie.go` reads. -/
structure DriverConfig where
  containerLabelTag : String
  enableReadOnlyRootFs : Bool
  maxTmpFsInodes : Nat
  imageEnableVolume : Bool
  disableUnprivilegedContainers : Bool
deriving DecidableEq, Repr

/-- The `DockerDriver` fields `cookie.go` reads.  `poolEnabled` models
`drv.pool != nil` and `imgCacheEnabled` models `drv.imgCache != nil`. -/
structure Driver where
  conf : DriverConfig
  instanceId : String
  hostname : String
  poolEnabled : Bool
  imgCacheEnabled : Bool
deriving DecidableEq, Repr

/-- One entry of `hostOpts.Ulimits` (`units.Ulimit`). -/
structure Ulimit where
  name : String
  soft : Int
  hard : Int
deriving DecidableEq, Repr

/-- `container.LogConfig`. -/
structure LogConfig where
  type : String
  config : List (String × String)
deriving DecidableEq, Repr

/-- The fields of `container.Config` (`c.opts`) that `cookie.go` writes.
Go maps are association lists updated by key. -/
structure ContainerConfig where
  hostname : String
  user : String
  env : List String
  cmd : List String
  workingDir : String
  labels : List (String × String)
  volumes : List String
deriving DecidableEq, Repr

/-- The fields of `container.HostConfig` (`c.hostOpts`) that `cookie.go`
writes. -/
structure HostConfig where
  memory : Int
  memorySwap : Int
  kernelMemory : Int
  memorySwappiness : Option Int
  storageOpt : List (String × String)
  pidsLimit : Option Int
  ulimits : List Ulimit
  tmpfs : List (String × String)
  binds : List String
  cpuQuota : Int
  cpuPeriod : Int
  networkMode : String
  logConfig : LogConfig
  capDrop : List String
  securityOpt : List String
deriving DecidableEq, Repr

/-- Zero value of `container.Config`, as produced by Go struct allocation. -/
def ContainerConfig.zero : ContainerConfig :=
  ⟨"", "", [], [], "", [], []⟩

/-- Zero value of `container.HostConfig`. -/
def HostConfig.zero : HostConfig :=
  ⟨0, 0, 0, none, [], none, [], [], [], 0, 0, "", ⟨"", []⟩, [], []⟩

/-- `CachedImage`, the image record captured on the cookie and shared with the
image cache. -/
structure CachedImage where
  id : String
  parentId : String
  repoTags : List String
  size : Nat
deriving DecidableEq, Repr

/-- The per-task execution cookie (`struct cookie`). -/
structure Cookie where
  poolId : String
  netId : String
  opts : ContainerConfig
  hostOpts : HostConfig
  task : ContainerTask
  drv : Driver
  imgReg : String
  image : Option CachedImage
  containerCreated : Bool
deriving DecidableEq, Repr

/-- A fresh cookie for a task: zero-valued launch configuration, no grants, no
image record, container not created.  (`Driver.CreateCookie`, the constructor
call site, is not under `src/`; the zero initial values are Go's struct zero
values.) -/
def mkCookie (t : ContainerTask) (d : Driver) : Cookie :=
  ⟨"", "", ContainerConfig.zero, HostConfig.zero, t, d, "", none, false⟩

/-- Insert-or-replace on a Go map modelled as an association list. -/
def mapInsert (k v : String) (m : List (String × String)) : List (String × String) :=
  if m.any (fun p => p.1 = k) then m.map (fun p => if p.1 = k then (k, v) else p)
  else m ++ [(k, v)]

/-- Modelled from the spec: `drivers.ParseImage` (not under `src/`) splits an
image reference into registry, repository and tag; a malformed reference
degrades to an empty registry, never an error.  Only the registry component is
used by the cookie. -/
def parseRegistry (image : String) : String :=
  match image.splitOn "/" with
  | first :: _ :: _ =>
      if first.contains '.' || first.contains ':' || first = "localhost" then first else ""
  | _ => ""

/-- `FnAgentClassifierLabel`; the constant is declared elsewhere in the driver
package (not under `src/`), its exact value is irrelevant here. -/
def FnAgentClassifierLabel : String := "fn-agent-classifier"

/-- `FnAgentInstanceLabel`; declared elsewhere in the driver package. -/
def FnAgentInstanceLabel : String := "fn-agent-instance"

/-- `FnDockerUser = fmt.Sprintf("%v:%v", FnUserId, FnGroupId)` with
`FnUserId = FnGroupId = 1000`. -/
def FnDockerUser : String := "1000:1000"

/-- `configureImage`: record the parsed registry of the task's image. -/
def configureImage (c : Cookie) : Cookie :=
  { c with imgReg := parseRegistry c.task.image }

/-- `configureLabels`: attach classifier and instance labels when a label tag
is configured. -/
def configureLabels (c : Cookie) : Cookie :=
  if c.drv.conf.containerLabelTag = "" then c
  else
    { c with opts := { c.opts with
        labels := mapInsert FnAgentInstanceLabel c.drv.instanceId
          (mapInsert FnAgentClassifierLabel c.drv.conf.containerLabelTag c.opts.labels) } }

/-- `configureLogger`: disable logging when no URL is configured, otherwise a
syslog driver with facility "user", format "rfc5424" and a comma-joined tag
list. -/
def configureLogger (c : Cookie) : Cookie :=
  if c.task.loggerConf.url = "" then
    { c with hostOpts := { c.hostOpts with logConfig := ⟨"none", []⟩ } }
  else
    let conf := c.task.loggerConf
    let tags := conf.tags.map (fun p => p.name ++ "=" ++ p.value)
    let base : LogConfig :=
      ⟨"syslog",
        [("syslog-address", conf.url), ("syslog-facility", "user"),
         ("syslog-format", "rfc5424")]⟩
    let lc :=
      if 0 < tags.length then
        { base with config := mapInsert "tag" (String.intercalate "," tags) base.config }
      else base
    { c with hostOpts := { c.hostOpts with logConfig := lc } }

/-- `configureMem`: when the memory limit is nonzero, set memory, memory+swap
and kernel memory to `int64(mem)` and swappiness to 0. -/
def configureMem (c : Cookie) : Cookie :=
  if c.task.memory = 0 then c
  else
    let mem := toInt64 c.task.memory
    { c with hostOpts := { c.hostOpts with
        memory := mem, memorySwap := mem, kernelMemory := mem,
        memorySwappiness := some 0 } }

/-- `configureFsSize`: storage option "size=<n>M" when a file-system size is
requested. -/
def configureFsSize (c : Cookie) : Cookie :=
  if c.task.fsSize = 0 then c
  else
    { c with hostOpts := { c.hostOpts with
        storageOpt := mapInsert "size" (toString c.task.fsSize ++ "M") c.hostOpts.storageOpt } }

/-- `configurePIDs`: PID limit as an `int64` when nonzero. -/
def configurePIDs (c : Cookie) : Cookie :=
  if c.task.pids = 0 then c
  else
    { c with hostOpts := { c.hostOpts with pidsLimit := some (toInt64 c.task.pids) } }

/-- `configureULimit`: skip a nil value; convert to `int64` and skip (with a
warning) when the conversion is negative, i.e. the `uint64` value overflows
signed 64-bit; otherwise append an entry with equal soft and hard limits. -/
def configureULimit (name : String) (value : Option Nat) (c : Cookie) : Cookie :=
  match value with
  | none => c
  | some v =>
      if toInt64 v < 0 then c
      else
        { c with hostOpts := { c.hostOpts with
            ulimits := c.hostOpts.ulimits ++ [⟨name, toInt64 v, toInt64 v⟩] } }

/-- `configureULimits`: the four optional soft ulimits, in source order. -/
def configureULimits (c : Cookie) : Cookie :=
  configureULimit "msgqueue" c.task.messageQueue
    (configureULimit "sigpending" c.task.pendingSignals
      (configureULimit "memlock" c.task.lockedMemory
        (configureULimit "nofile" c.task.openFiles c)))

/-- `configureTmpFs`: mount "/tmp" as tmpfs when a tmpfs size is requested or
the root file system is read-only; the option string carries the size and an
optional inode cap, and is empty for an unbounded mount. -/
def configureTmpFs (c : Cookie) : Cookie :=
  if c.task.tmpFsSize = 0 && !c.drv.conf.enableReadOnlyRootFs then c
  else
    let tmpFsOption :=
      if c.task.tmpFsSize ≠ 0 then
        if c.drv.conf.maxTmpFsInodes ≠ 0 then
          "size=" ++ toString c.task.tmpFsSize ++ "m,nr_inodes=" ++
            toString c.drv.conf.maxTmpFsInodes
        else
          "size=" ++ toString c.task.tmpFsSize ++ "m"
      else ""
    { c with hostOpts := { c.hostOpts with
        tmpfs := mapInsert "/tmp" tmpFsOption c.hostOpts.tmpfs } }

/-- `configureIOFS`: bind-mount the unix-domain-socket directory when a host
path is configured. -/
def configureIOFS (c : Cookie) : Cookie :=
  if c.task.udsDockerPath = "" then c
  else
    { c with hostOpts := { c.hostOpts with
        binds := c.hostOpts.binds ++ [c.task.udsDockerPath ++ ":" ++ c.task.udsDockerDest] } }

/-- Loop body of `configureVolumes`: one host/container directory pair. -/
def volumeStep (c : Cookie) (mapping : String × String) : Cookie :=
  { c with
    opts := { c.opts with volumes := c.opts.volumes ++ [mapping.2] },
    hostOpts := { c.hostOpts with
      binds := c.hostOpts.binds ++ [mapping.1 ++ ":" ++ mapping.2] } }

/-- `configureVolumes`: declare each container directory as a volume and append
a host:container bind entry. -/
def configureVolumes (c : Cookie) : Cookie :=
  if c.task.volumes.length = 0 then c
  else c.task.volumes.foldl volumeStep c

/-- `configureCPU`: translate milli-CPUs into a CFS quota/period pair,
`quota = int64(cpus * 100)` (the multiplication is `uint64` arithmetic) and a
fixed period of 100000 microseconds. -/
def configureCPU (c : Cookie) : Cookie :=
  if c.task.cpus = 0 then c
  else
    { c with hostOpts := { c.hostOpts with
        cpuQuota := toInt64 (c.task.cpus * 100), cpuPeriod := 100000 } }

/-- `configureWorkDir`: set the working directory only when non-empty. -/
def configureWorkDir (c : Cookie) : Cookie :=
  if c.task.workDir = "" then c
  else { c with opts := { c.opts with workingDir := c.task.workDir } }

/-- Outcomes of the network allocators consulted by `configureNetwork`:
`poolAllocId`/`poolAllocErr` model the pair returned by `pool.AllocPoolId()`
and `netAllocId` the id returned by `network.AllocNetwork()`. -/
structure NetEnv where
  poolAllocId : String
  poolAllocErr : Bool
  netAllocId : String
deriving DecidableEq, Repr

/-- Fallback branch of `configureNetwork`: pick a named docker network when
the allocator grants one, recording the network id. -/
def networkFromDefined (net : NetEnv) (c : Cookie) : Cookie :=
  if net.netAllocId ≠ "" then
    { c with
      hostOpts := { c.hostOpts with networkMode := net.netAllocId },
      netId := net.netAllocId }
  else c

/-- `configureNetwork`: skip when a network mode is already set; "none" when
the task disables networking; else try the prefork pool first (recording the
pool id and sharing that container's namespaces), and fall through to a named
docker network; leave the default mode when neither grants an id. -/
def configureNetwork (net : NetEnv) (c : Cookie) : Cookie :=
  if c.hostOpts.networkMode ≠ "" then c
  else if c.task.disableNet then
    { c with hostOpts := { c.hostOpts with networkMode := "none" } }
  else if c.drv.poolEnabled then
    if net.poolAllocId ≠ "" then
      { c with
        hostOpts := { c.hostOpts with
          networkMode := "container:" ++ net.poolAllocId },
        poolId := net.poolAllocId }
    else networkFromDefined net c
  else networkFromDefined net c

/-- `configureHostname`: a custom network mode and an explicit hostname are
incompatible, so the hostname is written only while the network mode is still
unset. -/
def configureHostname (c : Cookie) : Cookie :=
  if c.hostOpts.networkMode ≠ "" then c
  else { c with opts := { c.opts with hostname := c.drv.hostname } }

/-- `strings.Fields`: split on runs of whitespace, dropping empty fields. -/
def stringFields (s : String) : List String :=
  (s.split Char.isWhitespace).filter (fun w => w ≠ "")

/-- `configureCmd`: split a non-empty command string on whitespace. -/
def configureCmd (c : Cookie) : Cookie :=
  if c.task.command = "" then c
  else { c with opts := { c.opts with cmd := stringFields c.task.command } }

/-- `configureEnv`: append `NAME=VALUE` for each entry of the task's
environment map, in the map's per-run iteration order `order` (Go leaves that
order unspecified); no de-duplication. -/
def configureEnv (order : List (String × String)) (c : Cookie) : Cookie :=
  if c.task.envVars.length = 0 then c
  else
    { c with opts := { c.opts with
        env := c.opts.env ++ order.map (fun p => p.1 ++ "=" ++ p.2) } }

/-- `configureSecurity`: unless disabled driver-wide, force the fixed non-root
user, drop all capabilities and set no-new-privileges. -/
def configureSecurity (c : Cookie) : Cookie :=
  if c.drv.conf.disableUnprivilegedContainers then c
  else
    { c with
      opts := { c.opts with user := FnDockerUser },
      hostOpts := { c.hostOpts with
        capDrop := ["all"], securityOpt := ["no-new-privileges:true"] } }

/-- Modelled from the spec: the driver applies the configuration steps in a
fixed order (`Driver.CreateCookie`, the call site, is not under `src/`); the
order below is the spec's step list: image, labels, logging, memory, storage
size, PIDs, ulimits, tmpfs, UDS bind, volumes, CPU, working directory,
network, hostname, command, environment, security.  `order` is the per-run
iteration sequence of the task's environment map, a permutation of
`c.task.envVars`. -/
def runConfigure (net : NetEnv) (order : List (String × String)) (c : Cookie) : Cookie :=
  configureSecurity (configureEnv order (configureCmd (configureHostname (configureNetwork net
    (configureWorkDir (configureCPU (configureVolumes (configureIOFS (configureTmpFs
    (configureULimits (configurePIDs (configureFsSize (configureMem (configureLogger
    (configureLabels (configureImage c))))))))))))))))

/-- Errors of the embedding that `cookie.go` distinguishes:
`noSuchImage` is `docker.ErrNoSuchImage`, `imageWithVolume` is the package's
`ErrImageWithVolume` (HTTP 400), `serverBusy` is
`models.ErrCallTimeoutServerBusy`, and `other` covers every other error
value. -/
inductive DockerErr where
  | noSuchImage
  | imageWithVolume
  | serverBusy
  | other (msg : String)
deriving DecidableEq, Repr

/-- The part of the docker image-inspect answer that `ValidateImage` reads.
`configVolumes = none` models a nil `img.Config`. -/
structure ImageInspect where
  id : String
  parent : String
  repoTags : List String
  size : Int
  configVolumes : Option (List String)
deriving DecidableEq, Repr

/-- Calls the cookie issues to the image cache. -/
inductive CacheCall where
  | update (img : CachedImage)
  | markBusy (img : CachedImage)
  | markFree (img : CachedImage)
deriving DecidableEq, Repr

/-- Result of one `ValidateImage` invocation: the updated cookie, the calls
issued to the image cache during the invocation (in order, before the return),
and the returned `(needsPull, err)` pair. -/
structure ValidateResult where
  cookie : Cookie
  cacheCalls : List CacheCall
  needsPull : Bool
  err : Option DockerErr
deriving DecidableEq, Repr

/-- `ValidateImage`: idempotent re-entry when an image record is already
captured; `docker.ErrNoSuchImage` from inspection maps to `(true, nil)`; any
other inspection error is returned as-is with nothing captured.  On
inspection success the record is captured; when the image declares volumes and
the driver forbids them the distinguished `ErrImageWithVolume` is returned,
with the cache told to `Update` (instead of `MarkBusy`) before the return.
`inspect` is the oracle outcome of `docker.ImageInspectWithRaw`. -/
def ValidateImage (inspect : Except DockerErr ImageInspect) (c : Cookie) : ValidateResult :=
  if c.image.isSome then ⟨c, [], false, none⟩
  else
    match inspect with
    | .error .noSuchImage => ⟨c, [], true, none⟩
    | .error e => ⟨c, [], false, some e⟩
    | .ok img =>
        let volBad : Bool :=
          !c.drv.conf.imageEnableVolume &&
            (match img.configVolumes with
             | some vs => decide (0 < vs.length)
             | none => false)
        let err : Option DockerErr := if volBad then some .imageWithVolume else none
        let cached : CachedImage := ⟨img.id, img.parent, img.repoTags, toUInt64 img.size⟩
        let c' := { c with image := some cached }
        let calls : List CacheCall :=
          if c.drv.imgCacheEnabled then
            if err = some .imageWithVolume then [.update cached] else [.markBusy cached]
          else []
        ⟨c', calls, false, err⟩

/-- Oracle outcomes of the collaborators `PullImage` consults: `auth` is the
outcome of `authImage` (static per-registry credentials possibly overridden by
the task's optional `DockerAuth` capability, whose failure aborts the pull;
those helpers live outside `src/`), and `pull` is the value received from the
puller's completion channel (`none` = success). -/
structure PullEnv where
  authErr : Option DockerErr
  pull : Option DockerErr
deriving DecidableEq, Repr

/-- `PullImage`: no-op when an image record is already captured; an auth
failure aborts; otherwise the puller's completion value is returned.  Note the
cookie is returned unchanged in every case: a successful pull does not capture
an image record. -/
def PullImage (env : PullEnv) (c : Cookie) : Cookie × Option DockerErr :=
  if c.image.isSome then (c, none)
  else
    match env.authErr with
    | some e => (c, some e)
    | none => (c, env.pull)

/-- Oracle outcome of `docker.ContainerCreate`. -/
inductive CreateOutcome where
  | ok
  | noSuchImage
  | fail (msg : String)
deriving DecidableEq, Repr

/-- Whether the runtime actually created a container: `ContainerCreate`
creates one exactly when it returns without error. -/
def createMakesContainer : CreateOutcome → Bool
  | .ok => true
  | _ => false

/-- What one `CreateContainer` invocation reports: `fatalNotValidated` models
`log.Fatal("invalid usage: image not validated")`, which aborts the process. -/
inductive CreateStatus where
  | fatalNotValidated
  | ok
  | err (e : DockerErr)
deriving DecidableEq, Repr

/-- `CreateContainer`: fatal when no image record was captured; immediate
success when a container was already created; otherwise call the runtime and
set `containerCreated` — note the flag is assigned after the call returns,
whether or not the call failed.  `docker.ErrNoSuchImage` is mapped to the
distinguished server-busy signal; other errors propagate. -/
def CreateContainer (outcome : CreateOutcome) (c : Cookie) : Cookie × CreateStatus :=
  if c.image.isNone then (c, .fatalNotValidated)
  else if c.containerCreated then (c, .ok)
  else
    let c' := { c with containerCreated := true }
    match outcome with
    | .noSuchImage => (c', .err .serverBusy)
    | .fail msg => (c', .err (.other msg))
    | .ok => (c', .ok)

/-- Calls `Close` issues to the runtime, the allocators and the cache. -/
inductive CloseCall where
  | removeContainer (id : String) (force removeVolumes : Bool)
  | freePoolId (id : String)
  | freeNetwork (id : String)
  | markFree (img : CachedImage)
deriving DecidableEq, Repr

/-- Result of one `Close` invocation: the cookie afterwards, the calls issued
(in order), and the returned error. -/
structure CloseResult where
  cookie : Cookie
  calls : List CloseCall
  err : Option DockerErr
deriving DecidableEq, Repr

/-- `Close`: when `containerCreated` is set, force-remove the container (with
volumes) under the task's id, keeping the removal error as the return value
(it is logged, not fatal); then unconditionally free the pool grant (when one
was recorded and the pool exists), free the network grant (when recorded), and
mark the captured image record free in the cache (when one was captured and a
cache exists).  No cookie field is cleared.  `removeErr` is the oracle outcome
of `docker.RemoveContainer`. -/
def Close (removeErr : Option DockerErr) (c : Cookie) : CloseResult :=
  let removeCalls : List CloseCall :=
    if c.containerCreated then [.removeContainer c.task.id true true] else []
  let err : Option DockerErr := if c.containerCreated then removeErr else none
  let poolCalls : List CloseCall :=
    if c.poolId ≠ "" ∧ c.drv.poolEnabled then [.freePoolId c.poolId] else []
  let netCalls : List CloseCall :=
    if c.netId ≠ "" then [.freeNetwork c.netId] else []
  let cacheCalls : List CloseCall :=
    match c.image with
    | some img => if c.drv.imgCacheEnabled then [.markFree img] else []
    | none => []
  ⟨c, removeCalls ++ poolCalls ++ netCalls ++ cacheCalls, err⟩

/-! Arithmetic facts about the `uint64` → `int64` reinterpretation. -/

theorem toInt64_of_lt {v : Nat} (h : v < 2 ^ 63) : toInt64 v = (v : Int) := by
  have h64 : v < 2 ^ 64 := lt_trans h (by norm_num)
  unfold toInt64
  rw [Nat.mod_eq_of_lt h64, if_pos h]

theorem toInt64_of_ge {v : Nat} (h1 : 2 ^ 63 ≤ v) (h2 : v < 2 ^ 64) :
    toInt64 v = (v : Int) - 2 ^ 64 := by
  unfold toInt64
  rw [Nat.mod_eq_of_lt h2, if_neg (Nat.not_lt.mpr h1)]

theorem toInt64_nonneg {v : Nat} (h : v < 2 ^ 63) : 0 ≤ toInt64 v := by
  rw [toInt64_of_lt h]
  exact Int.ofNat_nonneg v

theorem toInt64_neg {v : Nat} (h1 : 2 ^ 63 ≤ v) (h2 : v < 2 ^ 64) : toInt64 v < 0 := by
  rw [toInt64_of_ge h1 h2]
  have : (v : Int) < 2 ^ 64 := by exact_mod_cast h2
  omega

/-! Field-preservation lemmas: each configuration step touches only its own
fields of the launch configuration. -/

@[simp] theorem configureImage_task (c : Cookie) : (configureImage c).task = c.task := rfl

@[simp] theorem configureImage_netMode (c : Cookie) :
    (configureImage c).hostOpts.networkMode = c.hostOpts.networkMode := rfl

@[simp] theorem configureImage_hostname (c : Cookie) :
    (configureImage c).opts.hostname = c.opts.hostname := rfl

@[simp] theorem configureLabels_task (c : Cookie) : (configureLabels c).task = c.task := by
  unfold configureLabels; split <;> rfl

@[simp] theorem configureLabels_netMode (c : Cookie) :
    (configureLabels c).hostOpts.networkMode = c.hostOpts.networkMode := by
  unfold configureLabels; split <;> rfl

@[simp] theorem configureLabels_hostname (c : Cookie) :
    (configureLabels c).opts.hostname = c.opts.hostname := by
  unfold configureLabels; split <;> rfl

@[simp] theorem configureLogger_task (c : Cookie) : (configureLogger c).task = c.task := by
  unfold configureLogger; split <;> rfl

@[simp] theorem configureLogger_netMode (c : Cookie) :
    (configureLogger c).hostOpts.networkMode = c.hostOpts.networkMode := by
  unfold configureLogger; split <;> rfl

@[simp] theorem configureLogger_hostname (c : Cookie) :
    (configureLogger c).opts.hostname = c.opts.hostname := by
  unfold configureLogger; split <;> rfl

@[simp] theorem configureMem_task (c : Cookie) : (configureMem c).task = c.task := by
  unfold configureMem; split <;> rfl

@[simp] theorem configureMem_netMode (c : Cookie) :
    (configureMem c).hostOpts.networkMode = c.hostOpts.networkMode := by
  unfold configureMem; split <;> rfl

@[simp] theorem configureMem_hostname (c : Cookie) :
    (configureMem c).opts.hostname = c.opts.hostname := by
  unfold configureMem; split <;> rfl

@[simp] theorem configureFsSize_task (c : Cookie) : (configureFsSize c).task = c.task := by
  unfold configureFsSize; split <;> rfl

@[simp] theorem configureFsSize_netMode (c : Cookie) :
    (configureFsSize c).hostOpts.networkMode = c.hostOpts.networkMode := by
  unfold configureFsSize; split <;> rfl

@[simp] theorem configureFsSize_hostname (c : Cookie) :
    (configureFsSize c).opts.hostname = c.opts.hostname := by
  unfold configureFsSize; split <;> rfl

@[simp] theorem configurePIDs_task (c : Cookie) : (configurePIDs c).task = c.task := by
  unfold configurePIDs; split <;> rfl

@[simp] theorem configurePIDs_netMode (c : Cookie) :
    (configurePIDs c).hostOpts.networkMode = c.hostOpts.networkMode := by
  unfold configurePIDs; split <;> rfl

@[simp] theorem configurePIDs_hostname (c : Cookie) :
    (configurePIDs c).opts.hostname = c.opts.hostname := by
  unfold configurePIDs; split <;> rfl

@[simp] theorem configureULimit_task (name : String) (value : Option Nat) (c : Cookie) :
    (configureULimit name value c).task = c.task := by
  unfold configureULimit
  repeat' split
  all_goals rfl

@[simp] theorem configureULimit_netMode (name : String) (value : Option Nat) (c : Cookie) :
    (configureULimit name value c).hostOpts.networkMode = c.hostOpts.networkMode := by
  unfold configureULimit
  repeat' split
  all_goals rfl

@[simp] theorem configureULimit_hostname (name : String) (value : Option Nat) (c : Cookie) :
    (configureULimit name value c).opts.hostname = c.opts.hostname := by
  unfold configureULimit
  repeat' split
  all_goals rfl

@[simp] theorem configureULimits_task (c : Cookie) : (configureULimits c).task = c.task := by
  unfold configureULimits; simp

@[simp] theorem configureULimits_netMode (c : Cookie) :
    (configureULimits c).hostOpts.networkMode = c.hostOpts.networkMode := by
  unfold configureULimits; simp

@[simp] theorem configureULimits_hostname (c : Cookie) :
    (configureULimits c).opts.hostname = c.opts.hostname := by
  unfold configureULimits; simp

@[simp] theorem configureTmpFs_task (c : Cookie) : (configureTmpFs c).task = c.task := by
  unfold configureTmpFs; split <;> rfl

@[simp] theorem configureTmpFs_netMode (c : Cookie) :
    (configureTmpFs c).hostOpts.networkMode = c.hostOpts.networkMode := by
  unfold configureTmpFs; split <;> rfl

@[simp] theorem configureTmpFs_hostname (c : Cookie) :
    (configureTmpFs c).opts.hostname = c.opts.hostname := by
  unfold configureTmpFs; split <;> rfl

@[simp] theorem configureIOFS_task (c : Cookie) : (configureIOFS c).task = c.task := by
  unfold configureIOFS; split <;> rfl

@[simp] theorem configureIOFS_netMode (c : Cookie) :
    (configureIOFS c).hostOpts.networkMode = c.hostOpts.networkMode := by
  unfold configureIOFS; split <;> rfl

@[simp] theorem configureIOFS_hostname (c : Cookie) :
    (configureIOFS c).opts.hostname = c.opts.hostname := by
  unfold configureIOFS; split <;> rfl

@[simp] theorem volumeStep_task (c : Cookie) (m : String × String) :
    (volumeStep c m).task = c.task := rfl

@[simp] theorem volumeStep_netMode (c : Cookie) (m : String × String) :
    (volumeStep c m).hostOpts.networkMode = c.hostOpts.networkMode := rfl

@[simp] theorem volumeStep_hostname (c : Cookie) (m : String × String) :
    (volumeStep c m).opts.hostname = c.opts.hostname := rfl

theorem foldl_volumeStep_task (l : List (String × String)) (c : Cookie) :
    (l.foldl volumeStep c).task = c.task := by
  induction l generalizing c with
  | nil => rfl
  | cons a l ih => rw [List.foldl_cons, ih, volumeStep_task]

theorem foldl_volumeStep_netMode (l : List (String × String)) (c : Cookie) :
    (l.foldl volumeStep c).hostOpts.networkMode = c.hostOpts.networkMode := by
  induction l generalizing c with
  | nil => rfl
  | cons a l ih => rw [List.foldl_cons, ih, volumeStep_netMode]

theorem foldl_volumeStep_hostname (l : List (String × String)) (c : Cookie) :
    (l.foldl volumeStep c).opts.hostname = c.opts.hostname := by
  induction l generalizing c with
  | nil => rfl
  | cons a l ih => rw [List.foldl_cons, ih, volumeStep_hostname]

@[simp] theorem configureVolumes_task (c : Cookie) : (configureVolumes c).task = c.task := by
  unfold configureVolumes; split
  · rfl
  · exact foldl_volumeStep_task _ _

@[simp] theorem configureVolumes_netMode (c : Cookie) :
    (configureVolumes c).hostOpts.networkMode = c.hostOpts.networkMode := by
  unfold configureVolumes; split
  · rfl
  · exact foldl_volumeStep_netMode _ _

@[simp] theorem configureVolumes_hostname (c : Cookie) :
    (configureVolumes c).opts.hostname = c.opts.hostname := by
  unfold configureVolumes; split
  · rfl
  · exact foldl_volumeStep_hostname _ _

@[simp] theorem configureCPU_task (c : Cookie) : (configureCPU c).task = c.task := by
  unfold configureCPU; split <;> rfl

@[simp] theorem configureCPU_netMode (c : Cookie) :
    (configureCPU c).hostOpts.networkMode = c.hostOpts.networkMode := by
  unfold configureCPU; split <;> rfl

@[simp] theorem configureCPU_hostname (c : Cookie) :
    (configureCPU c).opts.hostname = c.opts.hostname := by
  unfold configureCPU; split <;> rfl

@[simp] theorem configureWorkDir_task (c : Cookie) : (configureWorkDir c).task = c.task := by
  unfold configureWorkDir; split <;> rfl

@[simp] theorem configureWorkDir_netMode (c : Cookie) :
    (configureWorkDir c).hostOpts.networkMode = c.hostOpts.networkMode := by
  unfold configureWorkDir; split <;> rfl

@[simp] theorem configureWorkDir_hostname (c : Cookie) :
    (configureWorkDir c).opts.hostname = c.opts.hostname := by
  unfold configureWorkDir; split <;> rfl

@[simp] theorem networkFromDefined_task (net : NetEnv) (c : Cookie) :
    (networkFromDefined net c).task = c.task := by
  unfold networkFromDefined; split <;> rfl

@[simp] theorem networkFromDefined_hostname (net : NetEnv) (c : Cookie) :
    (networkFromDefined net c).opts.hostname = c.opts.hostname := by
  unfold networkFromDefined; split <;> rfl

@[simp] theorem configureNetwork_task (net : NetEnv) (c : Cookie) :
    (configureNetwork net c).task = c.task := by
  unfold configureNetwork
  repeat' first
  | rfl
  | apply networkFromDefined_task
  | split

@[simp] theorem configureNetwork_hostname (net : NetEnv) (c : Cookie) :
    (configureNetwork net c).opts.hostname = c.opts.hostname := by
  unfold configureNetwork
  repeat' first
  | rfl
  | apply networkFromDefined_hostname
  | split

@[simp] theorem configureHostname_task (c : Cookie) :
    (configureHostname c).task = c.task := by
  unfold configureHostname; split <;> rfl

@[simp] theorem configureHostname_netMode (c : Cookie) :
    (configureHostname c).hostOpts.networkMode = c.hostOpts.networkMode := by
  unfold configureHostname; split <;> rfl

@[simp] theorem configureCmd_task (c : Cookie) : (configureCmd c).task = c.task := by
  unfold configureCmd; split <;> rfl

@[simp] theorem configureCmd_netMode (c : Cookie) :
    (configureCmd c).hostOpts.networkMode = c.hostOpts.networkMode := by
  unfold configureCmd; split <;> rfl

@[simp] theorem configureCmd_hostname (c : Cookie) :
    (configureCmd c).opts.hostname = c.opts.hostname := by
  unfold configureCmd; split <;> rfl

@[simp] theorem configureEnv_task (order : List (String × String)) (c : Cookie) :
    (configureEnv order c).task = c.task := by
  unfold configureEnv; split <;> rfl

@[simp] theorem configureEnv_netMode (order : List (String × String)) (c : Cookie) :
    (configureEnv order c).hostOpts.networkMode = c.hostOpts.networkMode := by
  unfold configureEnv; split <;> rfl

@[simp] theorem configureEnv_hostname (order : List (String × String)) (c : Cookie) :
    (configureEnv order c).opts.hostname = c.opts.hostname := by
  unfold configureEnv; split <;> rfl

@[simp] theorem configureSecurity_task (c : Cookie) : (configureSecurity c).task = c.task := by
  unfold configureSecurity; split <;> rfl

@[simp] theorem configureSecurity_netMode (c : Cookie) :
    (configureSecurity c).hostOpts.networkMode = c.hostOpts.networkMode := by
  unfold configureSecurity; split <;> rfl

@[simp] theorem configureSecurity_hostname (c : Cookie) :
    (configureSecurity c).opts.hostname = c.opts.hostname := by
  unfold configureSecurity; split <;> rfl

@[simp] theorem configureSecurity_env (c : Cookie) :
    (configureSecurity c).opts.env = c.opts.env := by
  unfold configureSecurity; split <;> rfl

/-! Concrete sample data used by counterexamples and witnesses. -/

/-- A sample driver: no label tag, writable root, no inode cap, volumes
forbidden, security enabled, prefork pool and image cache present. -/
def scDrv : Driver := ⟨⟨"", false, 0, false, false⟩, "inst-1", "host-1", true, true⟩

/-- A sample task. -/
def scTask : ContainerTask :=
  ⟨"busy:1", 512, 800, 0, 0, some 100, none, none, none, 0, "", "", [],
   ⟨"", []⟩, false, "", "echo hi", [("A", "1"), ("B", "2")], "task-1"⟩

/-- A fresh cookie for the sample task. -/
def c0 : Cookie := mkCookie scTask scDrv

/-- Allocator outcomes granting nothing. -/
def scNetNone : NetEnv := ⟨"", false, ""⟩

/-- Claim C6, counterexample: the memory limit `2 ^ 63` is positive, yet
`configureMem` sets the memory field to the wrapped signed-64-bit value
`-(2 ^ 63)`, which differs from the limit — the fields are not "all equal to
that limit" for every positive limit. -/
theorem c6_memory_counterexample :
    0 < (mkCookie { scTask with memory := 2 ^ 63 } scDrv).task.memory ∧
    (configureMem (mkCookie { scTask with memory := 2 ^ 63 } scDrv)).hostOpts.memory =
      -(2 ^ 63) ∧
    (configureMem (mkCookie { scTask with memory := 2 ^ 63 } scDrv)).hostOpts.memory ≠
      ((mkCookie { scTask with memory := 2 ^ 63 } scDrv).task.memory : Int) := by
  refine ⟨by decide, by decide, by decide⟩

/-- Claim C6, amended: for a memory limit in `(0, 2 ^ 63)` the step sets
memory, memory+swap and kernel memory all equal to the limit and swappiness to
0; a zero limit sets none of these (the cookie is unchanged); a limit in
`[2 ^ 63, 2 ^ 64)` overflows the signed-64-bit conversion, so the three fields
are set to the wrapped negative value — equal to one another but not to the
limit — with swappiness 0. -/
theorem c6_memory_amended (c : Cookie) (h64 : c.task.memory < 2 ^ 64) :
    (c.task.memory = 0 → configureMem c = c) ∧
    (0 < c.task.memory → c.task.memory < 2 ^ 63 →
      (configureMem c).hostOpts.memory = (c.task.memory : Int) ∧
      (configureMem c).hostOpts.memorySwap = (c.task.memory : Int) ∧
      (configureMem c).hostOpts.kernelMemory = (c.task.memory : Int) ∧
      (configureMem c).hostOpts.memorySwappiness = some 0) ∧
    (2 ^ 63 ≤ c.task.memory →
      (configureMem c).hostOpts.memory = (c.task.memory : Int) - 2 ^ 64 ∧
      (configureMem c).hostOpts.memory < 0 ∧
      (configureMem c).hostOpts.memorySwap = (configureMem c).hostOpts.memory ∧
      (configureMem c).hostOpts.kernelMemory = (configureMem c).hostOpts.memory ∧
      (configureMem c).hostOpts.memorySwappiness = some 0) := by
  refine ⟨fun h0 => ?_, fun hpos hlt => ?_, fun hge => ?_⟩
  · simp [configureMem, h0]
  · have hne : c.task.memory ≠ 0 := Nat.pos_iff_ne_zero.mp hpos
    simp [configureMem, hne, toInt64_of_lt hlt]
  · have hne : c.task.memory ≠ 0 := by omega
    have hneg := toInt64_neg hge h64
    rw [toInt64_of_ge hge h64] at hneg
    simp [configureMem, hne, toInt64_of_ge hge h64, hneg]
    simpa using h64

/-- Witness for `c6_memory_amended` at the sample cookie (memory 512). -/
theorem c6_memory_amended_witness :
    c0.task.memory < 2 ^ 64 ∧
    ((c0.task.memory = 0 → configureMem c0 = c0) ∧
     (0 < c0.task.memory → c0.task.memory < 2 ^ 63 →
       (configureMem c0).hostOpts.memory = (c0.task.memory : Int) ∧
       (configureMem c0).hostOpts.memorySwap = (c0.task.memory : Int) ∧
       (configureMem c0).hostOpts.kernelMemory = (c0.task.memory : Int) ∧
       (configureMem c0).hostOpts.memorySwappiness = some 0) ∧
     (2 ^ 63 ≤ c0.task.memory →
       (configureMem c0).hostOpts.memory = (c0.task.memory : Int) - 2 ^ 64 ∧
       (configureMem c0).hostOpts.memory < 0 ∧
       (configureMem c0).hostOpts.memorySwap = (configureMem c0).hostOpts.memory ∧
       (configureMem c0).hostOpts.kernelMemory = (configureMem c0).hostOpts.memory ∧
       (configureMem c0).hostOpts.memorySwappiness = some 0)) :=
  ⟨by decide, c6_memory_amended c0 (by decide)⟩

/-- Claim C7, counterexample: for the positive CPU share value `2 ^ 62` the
`uint64` product `2 ^ 62 * 100` wraps to 0 mod `2 ^ 64`, so the quota is set
to 0, not to `V × 100`. -/
theorem c7_cpu_counterexample :
    0 < (mkCookie { scTask with cpus := 2 ^ 62 } scDrv).task.cpus ∧
    (configureCPU (mkCookie { scTask with cpus := 2 ^ 62 } scDrv)).hostOpts.cpuQuota = 0 ∧
    (configureCPU (mkCookie { scTask with cpus := 2 ^ 62 } scDrv)).hostOpts.cpuQuota ≠
      ((mkCookie { scTask with cpus := 2 ^ 62 } scDrv).task.cpus : Int) * 100 := by
  refine ⟨by decide, by decide, by decide⟩

/-- Claim C7, amended: for a CPU share value `V > 0` the step sets the period
to exactly 100000 and the quota to the signed-64-bit reinterpretation of the
`uint64` product `V * 100`; whenever `V * 100 < 2 ^ 63` (no overflow) the
quota is therefore exactly `V × 100`; for `V = 0` neither field is set (the
cookie is unchanged). -/
theorem c7_cpu_amended (c : Cookie) (h64 : c.task.cpus < 2 ^ 64) :
    (c.task.cpus = 0 → configureCPU c = c) ∧
    (0 < c.task.cpus →
      (configureCPU c).hostOpts.cpuPeriod = 100000 ∧
      (configureCPU c).hostOpts.cpuQuota = toInt64 (c.task.cpus * 100) ∧
      (c.task.cpus * 100 < 2 ^ 63 →
        (configureCPU c).hostOpts.cpuQuota = (c.task.cpus : Int) * 100)) := by
  refine ⟨fun h0 => ?_, fun hpos => ?_⟩
  · simp [configureCPU, h0]
  · have hne : c.task.cpus ≠ 0 := Nat.pos_iff_ne_zero.mp hpos
    refine ⟨by simp [configureCPU, hne], by simp [configureCPU, hne], fun hlt => ?_⟩
    simp [configureCPU, hne, toInt64_of_lt hlt]

/-- Witness for `c7_cpu_amended` at the sample cookie (800 milli-CPUs). -/
theorem c7_cpu_amended_witness :
    c0.task.cpus < 2 ^ 64 ∧
    ((c0.task.cpus = 0 → configureCPU c0 = c0) ∧
     (0 < c0.task.cpus →
       (configureCPU c0).hostOpts.cpuPeriod = 100000 ∧
       (configureCPU c0).hostOpts.cpuQuota = toInt64 (c0.task.cpus * 100) ∧
       (c0.task.cpus * 100 < 2 ^ 63 →
         (configureCPU c0).hostOpts.cpuQuota = (c0.task.cpus : Int) * 100))) :=
  ⟨by decide, c7_cpu_amended c0 (by decide)⟩

/-- Spec-side description of one configured ulimit: skipped when absent or
when the value does not fit in a signed 64-bit integer, otherwise one entry
with equal soft and hard limits. -/
def ulimitEntrySpec (name : String) (value : Option Nat) : List Ulimit :=
  match value with
  | none => []
  | some v => if v < 2 ^ 63 then [⟨name, (v : Int), (v : Int)⟩] else []

/-- Spec-side list of all configured ulimits, in the source's order. -/
def ulimitsSpec (t : ContainerTask) : List Ulimit :=
  ulimitEntrySpec "nofile" t.openFiles ++ ulimitEntrySpec "memlock" t.lockedMemory ++
    ulimitEntrySpec "sigpending" t.pendingSignals ++ ulimitEntrySpec "msgqueue" t.messageQueue

theorem configureULimit_ulimits (name : String) (value : Option Nat) (c : Cookie)
    (h : value.getD 0 < 2 ^ 64) :
    (configureULimit name value c).hostOpts.ulimits =
      c.hostOpts.ulimits ++ ulimitEntrySpec name value := by
  cases value with
  | none => simp [configureULimit, ulimitEntrySpec]
  | some v =>
      simp only [Option.getD_some] at h
      simp only [configureULimit, ulimitEntrySpec]
      by_cases hv : v < 2 ^ 63
      · rw [if_neg (not_lt.mpr (toInt64_nonneg hv)), if_pos hv, toInt64_of_lt hv]
      · rw [if_pos (toInt64_neg (le_of_not_lt hv) h), if_neg hv, List.append_nil]

/-- Claim C8: each of the four optional ulimits whose value fits in a signed
64-bit integer is applied with equal soft and hard limits, in order; a value
of magnitude at least `2 ^ 63` (exceeding the maximum signed 64-bit integer)
is skipped without affecting the others, and the step never fails (it is a
total function on cookies). -/
theorem c8_ulimit_overflow (c : Cookie)
    (h1 : c.task.openFiles.getD 0 < 2 ^ 64)
    (h2 : c.task.lockedMemory.getD 0 < 2 ^ 64)
    (h3 : c.task.pendingSignals.getD 0 < 2 ^ 64)
    (h4 : c.task.messageQueue.getD 0 < 2 ^ 64) :
    (configureULimits c).hostOpts.ulimits = c.hostOpts.ulimits ++ ulimitsSpec c.task := by
  unfold configureULimits ulimitsSpec
  rw [configureULimit_ulimits _ _ _ h4, configureULimit_ulimits _ _ _ h3,
    configureULimit_ulimits _ _ _ h2, configureULimit_ulimits _ _ _ h1]
  simp [List.append_assoc]

/-- A cookie whose task has a normal open-files limit, an overflowing
locked-memory limit (`2 ^ 63`, to be skipped), no pending-signal limit, and a
normal message-queue limit. -/
def ulC : Cookie :=
  mkCookie { scTask with lockedMemory := some (2 ^ 63), messageQueue := some 7 } scDrv

/-- Witness for `c8_ulimit_overflow` at `ulC`. -/
theorem c8_ulimit_overflow_witness :
    ulC.task.openFiles.getD 0 < 2 ^ 64 ∧
    ulC.task.lockedMemory.getD 0 < 2 ^ 64 ∧
    ulC.task.pendingSignals.getD 0 < 2 ^ 64 ∧
    ulC.task.messageQueue.getD 0 < 2 ^ 64 ∧
    (configureULimits ulC).hostOpts.ulimits = ulC.hostOpts.ulimits ++ ulimitsSpec ulC.task :=
  ⟨by decide, by decide, by decide, by decide,
    c8_ulimit_overflow ulC (by decide) (by decide) (by decide) (by decide)⟩

/-- Claim C9: after the full ordered configuration sequence on a fresh cookie,
the launch configuration never carries both a non-default network mode and a
hostname: the hostname step writes only while the network mode is still unset,
and no later step touches either field. -/
theorem c9_network_hostname_exclusive (t : ContainerTask) (d : Driver) (net : NetEnv)
    (order : List (String × String)) :
    (runConfigure net order (mkCookie t d)).hostOpts.networkMode = "" ∨
    (runConfigure net order (mkCookie t d)).opts.hostname = "" := by
  unfold runConfigure
  set m := configureWorkDir (configureCPU (configureVolumes (configureIOFS (configureTmpFs
    (configureULimits (configurePIDs (configureFsSize (configureMem (configureLogger
    (configureLabels (configureImage (mkCookie t d)))))))))))) with hm
  have hhost : m.opts.hostname = "" := by
    rw [hm]; simp [mkCookie, ContainerConfig.zero]
  by_cases h : (configureNetwork net m).hostOpts.networkMode = ""
  · left
    simp [h]
  · right
    have hskip : configureHostname (configureNetwork net m) = configureNetwork net m := by
      unfold configureHostname
      rw [if_pos h]
    simp [hskip, hhost]

/-- `configureEnv` under a valid iteration order (a permutation of the task's
environment map): it appends exactly the order's `NAME=VALUE` images. -/
theorem configureEnv_of_perm (order : List (String × String)) (c : Cookie)
    (h : order.Perm c.task.envVars) :
    configureEnv order c =
      { c with opts := { c.opts with
          env := c.opts.env ++ order.map (fun p => p.1 ++ "=" ++ p.2) } } := by
  unfold configureEnv
  split
  · next hlen =>
      have : order = [] := List.eq_nil_of_length_eq_zero (h.length_eq.trans hlen)
      subst this
      simp only [List.map_nil, List.append_nil]
  · rfl

/-- `configureEnv` with the empty iteration order leaves the cookie
unchanged. -/
theorem configureEnv_nil (c : Cookie) : configureEnv [] c = c := by
  unfold configureEnv
  split
  · rfl
  · simp only [List.map_nil, List.append_nil]

/-- `configureSecurity` commutes with overwriting the environment list: it
never reads or writes `opts.env`. -/
theorem configureSecurity_setEnv (c : Cookie) (e : List String) :
    configureSecurity { c with opts := { c.opts with env := e } } =
      { configureSecurity c with opts := { (configureSecurity c).opts with env := e } } := by
  unfold configureSecurity
  by_cases h : c.drv.conf.disableUnprivilegedContainers <;> simp [h]

/-- The full configuration run under iteration order `order` equals the run
under the empty order with the order's `NAME=VALUE` images appended to the
environment list — every other field is independent of the order. -/
theorem runConfigure_env_append (net : NetEnv) (order : List (String × String)) (c : Cookie)
    (h : order.Perm c.task.envVars) :
    runConfigure net order c =
      { runConfigure net [] c with opts := { (runConfigure net [] c).opts with
          env := (runConfigure net [] c).opts.env ++
            order.map (fun p => p.1 ++ "=" ++ p.2) } } := by
  unfold runConfigure
  set m := configureCmd (configureHostname (configureNetwork net (configureWorkDir
    (configureCPU (configureVolumes (configureIOFS (configureTmpFs (configureULimits
    (configurePIDs (configureFsSize (configureMem (configureLogger (configureLabels
    (configureImage c)))))))))))))) with hm
  have htask : m.task = c.task := by rw [hm]; simp
  have ho : order.Perm m.task.envVars := by rw [htask]; exact h
  rw [configureEnv_of_perm order m ho, configureEnv_nil, configureSecurity_setEnv,
    configureSecurity_env]

/-- Claim C5, counterexample: the same task map `[A↦1, B↦2]` iterated in its
two possible orders (both permutations of the same environment map, i.e. the
same input) yields different environment-entry lists in the final launch
configuration, so the configuration output is not a function of the inputs
alone. -/
theorem c5_env_order_counterexample :
    ([(("A" : String), ("1" : String)), ("B", "2")]).Perm [("B", "2"), ("A", "1")] ∧
    ([(("A" : String), ("1" : String)), ("B", "2")]).Perm scTask.envVars ∧
    ([(("B" : String), ("2" : String)), ("A", "1")]).Perm scTask.envVars ∧
    (runConfigure scNetNone [("A", "1"), ("B", "2")] c0).opts.env = ["A=1", "B=2"] ∧
    (runConfigure scNetNone [("B", "2"), ("A", "1")] c0).opts.env = ["B=2", "A=1"] ∧
    (runConfigure scNetNone [("A", "1"), ("B", "2")] c0).opts.env ≠
      (runConfigure scNetNone [("B", "2"), ("A", "1")] c0).opts.env := by
  refine ⟨by decide, by decide, by decide, by decide, by decide, by decide⟩

/-- Claim C5, amended: two runs of the configuration steps over the same
inputs produce the same launch configuration in every field except the
environment-entry list, which is determined only up to permutation — the
entries are appended in the task environment-map's per-run iteration order,
which Go leaves unspecified. -/
theorem c5_env_order_amended (t : ContainerTask) (d : Driver) (net : NetEnv)
    (o1 o2 : List (String × String))
    (h1 : o1.Perm t.envVars) (h2 : o2.Perm t.envVars) :
    ((runConfigure net o1 (mkCookie t d)).opts.env).Perm
      ((runConfigure net o2 (mkCookie t d)).opts.env) ∧
    runConfigure net o1 (mkCookie t d) =
      { runConfigure net o2 (mkCookie t d) with
        opts := { (runConfigure net o2 (mkCookie t d)).opts with
          env := (runConfigure net o1 (mkCookie t d)).opts.env } } := by
  have e1 := runConfigure_env_append net o1 (mkCookie t d) h1
  have e2 := runConfigure_env_append net o2 (mkCookie t d) h2
  constructor
  · rw [e1, e2]
    exact List.Perm.append_left _ ((h1.trans h2.symm).map _)
  · rw [e1, e2]

/-- Witness for `c5_env_order_amended` at the sample task and its two
iteration orders. -/
theorem c5_env_order_amended_witness :
    ([(("A" : String), ("1" : String)), ("B", "2")]).Perm scTask.envVars ∧
    ([(("B" : String), ("2" : String)), ("A", "1")]).Perm scTask.envVars ∧
    (((runConfigure scNetNone [("A", "1"), ("B", "2")] (mkCookie scTask scDrv)).opts.env).Perm
      ((runConfigure scNetNone [("B", "2"), ("A", "1")] (mkCookie scTask scDrv)).opts.env) ∧
    runConfigure scNetNone [("A", "1"), ("B", "2")] (mkCookie scTask scDrv) =
      { runConfigure scNetNone [("B", "2"), ("A", "1")] (mkCookie scTask scDrv) with
        opts := { (runConfigure scNetNone [("B", "2"), ("A", "1")]
            (mkCookie scTask scDrv)).opts with
          env := (runConfigure scNetNone [("A", "1"), ("B", "2")]
            (mkCookie scTask scDrv)).opts.env } }) :=
  ⟨by decide, by decide,
    c5_env_order_amended scTask scDrv scNetNone _ _ (by decide) (by decide)⟩

/-- Sample docker inspect answer: an image without volume declarations. -/
def scImg : ImageInspect := ⟨"sha256:abc", "", ["busy:1"], 1000, none⟩

/-- Sample docker inspect answer: an image declaring the volume "/data". -/
def scImgVol : ImageInspect := ⟨"sha256:vol", "", ["vol:1"], 2000, some ["/data"]⟩

/-- Pull oracle: auth resolution and the pull itself both succeed. -/
def scPullOk : PullEnv := ⟨none, none⟩

/-- The image record `ValidateImage` captures for `scImg`. -/
def scCached : CachedImage := ⟨"sha256:abc", "", ["busy:1"], 1000⟩

/-- A validated sample cookie: image record captured, container not created. -/
def cVal : Cookie := { c0 with image := some scCached }

/-- A validated sample cookie that also holds a pool grant. -/
def cGrant : Cookie := { cVal with poolId := "pool-1" }

/-- Claim C1, counterexample: after `ValidateImage` answers
`(needsPull = true, err = nil)` on a runtime reporting "no such image" and a
`PullImage` that succeeds, `CreateContainer` hits its fatal image-not-validated
precondition (the pull never captures an image record), even though the
runtime's create call itself would succeed. -/
theorem c1_pull_create_counterexample :
    (ValidateImage (.error .noSuchImage) c0).needsPull = true ∧
    (ValidateImage (.error .noSuchImage) c0).err = none ∧
    (PullImage scPullOk (ValidateImage (.error .noSuchImage) c0).cookie).2 = none ∧
    (CreateContainer .ok
        (PullImage scPullOk (ValidateImage (.error .noSuchImage) c0).cookie).1).2 =
      CreateStatus.fatalNotValidated := by
  refine ⟨by decide, by decide, by decide, by decide⟩

/-- Claim C1, amended: the scenario succeeds once `ValidateImage` is called
again after the successful pull: the first validation returns
`(true, nil)` and leaves the cookie unchanged, the pull succeeds and leaves
the cookie unchanged, the second validation (now finding the image, with no
volume-policy violation) captures the record, and `CreateContainer` then does
not hit its fatal precondition and returns success. -/
theorem c1_revalidate_amended (c : Cookie) (img : ImageInspect) (pe : PullEnv)
    (h0 : c.image = none)
    (ha : pe.authErr = none) (hp : pe.pull = none)
    (hvol : c.drv.conf.imageEnableVolume = true ∨ img.configVolumes = none ∨
      img.configVolumes = some []) :
    (ValidateImage (.error .noSuchImage) c).needsPull = true ∧
    (ValidateImage (.error .noSuchImage) c).err = none ∧
    (ValidateImage (.error .noSuchImage) c).cookie = c ∧
    (PullImage pe c).2 = none ∧
    (PullImage pe c).1 = c ∧
    (ValidateImage (.ok img) c).err = none ∧
    (ValidateImage (.ok img) c).cookie.image =
      some ⟨img.id, img.parent, img.repoTags, toUInt64 img.size⟩ ∧
    (CreateContainer .ok (ValidateImage (.ok img) c).cookie).2 = CreateStatus.ok := by
  have hsome : c.image.isSome = false := by rw [h0]; rfl
  refine ⟨?_, ?_, ?_, ?_, ?_, ?_, ?_, ?_⟩
  · simp [ValidateImage, hsome]
  · simp [ValidateImage, hsome]
  · simp [ValidateImage, hsome]
  · simp [PullImage, hsome, ha, hp]
  · simp [PullImage, hsome, ha]
  · rcases hvol with h | h | h <;> simp [ValidateImage, hsome, h]
  · rcases hvol with h | h | h <;> simp [ValidateImage, hsome, h]
  · have himg : (ValidateImage (.ok img) c).cookie.image =
        some ⟨img.id, img.parent, img.repoTags, toUInt64 img.size⟩ := by
      rcases hvol with h | h | h <;> simp [ValidateImage, hsome, h]
    unfold CreateContainer
    rw [himg]
    simp only [Option.isNone_some, Bool.false_eq_true, if_false]
    split <;> rfl

/-- Witness for `c1_revalidate_amended` at the sample cookie, image and pull
oracle. -/
theorem c1_revalidate_amended_witness :
    c0.image = none ∧ scPullOk.authErr = none ∧ scPullOk.pull = none ∧
    (c0.drv.conf.imageEnableVolume = true ∨ scImg.configVolumes = none ∨
      scImg.configVolumes = some []) ∧
    ((ValidateImage (.error .noSuchImage) c0).needsPull = true ∧
     (ValidateImage (.error .noSuchImage) c0).err = none ∧
     (ValidateImage (.error .noSuchImage) c0).cookie = c0 ∧
     (PullImage scPullOk c0).2 = none ∧
     (PullImage scPullOk c0).1 = c0 ∧
     (ValidateImage (.ok scImg) c0).err = none ∧
     (ValidateImage (.ok scImg) c0).cookie.image =
       some ⟨scImg.id, scImg.parent, scImg.repoTags, toUInt64 scImg.size⟩ ∧
     (CreateContainer .ok (ValidateImage (.ok scImg) c0).cookie).2 = CreateStatus.ok) :=
  ⟨rfl, rfl, rfl, Or.inr (Or.inl rfl),
    c1_revalidate_amended c0 scImg scPullOk rfl rfl rfl (Or.inr (Or.inl rfl))⟩

/-- Claim C2, counterexample: on a validated cookie, a `CreateContainer` whose
runtime call fails with a generic error still sets `containerCreated := true`,
although the runtime created no container — the flag does not become true only
after the create call succeeded. -/
theorem c2_created_flag_counterexample :
    (CreateContainer (.fail "boom") cVal).1.containerCreated = true ∧
    createMakesContainer (.fail "boom") = false ∧
    (CreateContainer (.fail "boom") cVal).2 = CreateStatus.err (.other "boom") := by
  refine ⟨by decide, by decide, by decide⟩

/-- Claim C2, amended: on a validated cookie with no container yet,
`containerCreated` becomes true once the runtime create call has been
attempted — regardless of its outcome; the call reports success exactly when
the runtime actually created a container; and `Close` on the resulting cookie
issues the force-remove (with volumes) of the task's identifier first. -/
theorem c2_created_flag_amended (c : Cookie) (outcome : CreateOutcome)
    (rmErr : Option DockerErr) (i : CachedImage)
    (hi : c.image = some i) (h2 : c.containerCreated = false) :
    (CreateContainer outcome c).1.containerCreated = true ∧
    ((CreateContainer outcome c).2 = CreateStatus.ok ↔ createMakesContainer outcome = true) ∧
    (Close rmErr (CreateContainer outcome c).1).calls.head? =
      some (CloseCall.removeContainer c.task.id true true) := by
  cases outcome <;>
    simp [CreateContainer, Close, hi, h2, createMakesContainer, List.singleton_append]

/-- Witness for `c2_created_flag_amended` at the validated sample cookie with
a failing runtime create call. -/
theorem c2_created_flag_amended_witness :
    cVal.image = some scCached ∧ cVal.containerCreated = false ∧
    ((CreateContainer (.fail "boom") cVal).1.containerCreated = true ∧
     ((CreateContainer (.fail "boom") cVal).2 = CreateStatus.ok ↔
       createMakesContainer (.fail "boom") = true) ∧
     (Close none (CreateContainer (.fail "boom") cVal).1).calls.head? =
       some (CloseCall.removeContainer cVal.task.id true true)) :=
  ⟨rfl, rfl, c2_created_flag_amended cVal (.fail "boom") none scCached rfl rfl⟩

/-- Claim C3, counterexample: after a failed `CreateContainer` (generic
runtime error, no container created), `Close` does attempt container removal
— because the created-flag was set despite the failure — and returns the
removal error, so the error `Close` returns can arise from container
removal. -/
theorem c3_close_counterexample :
    (CreateContainer (.fail "boom") cGrant).2 = CreateStatus.err (.other "boom") ∧
    CloseCall.removeContainer cGrant.task.id true true ∈
      (Close (some (.other "remove failed")) (CreateContainer (.fail "boom") cGrant).1).calls ∧
    (Close (some (.other "remove failed")) (CreateContainer (.fail "boom") cGrant).1).err =
      some (DockerErr.other "remove failed") := by
  refine ⟨by decide, by decide, by decide⟩

/-- Claim C3, amended: `Close` after a failed `CreateContainer` still frees a
taken pool grant and network grant and releases the cache claim; but because
the created-flag is set even when the create call fails, `Close` also
attempts container removal and returns the removal call's error (if any). -/
theorem c3_close_after_failed_create_amended (c : Cookie) (outcome : CreateOutcome)
    (rmErr : Option DockerErr) (i : CachedImage)
    (hi : c.image = some i) (h2 : c.containerCreated = false)
    (hfail : createMakesContainer outcome = false) :
    (CreateContainer outcome c).2 ≠ CreateStatus.ok ∧
    (c.poolId ≠ "" → c.drv.poolEnabled = true →
      CloseCall.freePoolId c.poolId ∈ (Close rmErr (CreateContainer outcome c).1).calls) ∧
    (c.netId ≠ "" →
      CloseCall.freeNetwork c.netId ∈ (Close rmErr (CreateContainer outcome c).1).calls) ∧
    (c.drv.imgCacheEnabled = true →
      CloseCall.markFree i ∈ (Close rmErr (CreateContainer outcome c).1).calls) ∧
    (Close rmErr (CreateContainer outcome c).1).err = rmErr := by
  cases outcome with
  | ok => simp [createMakesContainer] at hfail
  | noSuchImage =>
      refine ⟨by simp [CreateContainer, hi, h2], fun hp hpe => ?_, fun hn => ?_,
        fun hc => ?_, ?_⟩
      · simp [CreateContainer, Close, hi, h2, hp, hpe]
      · simp [CreateContainer, Close, hi, h2, hn]
      · simp [CreateContainer, Close, hi, h2, hc]
      · simp [CreateContainer, Close, hi, h2]
  | fail msg =>
      refine ⟨by simp [CreateContainer, hi, h2], fun hp hpe => ?_, fun hn => ?_,
        fun hc => ?_, ?_⟩
      · simp [CreateContainer, Close, hi, h2, hp, hpe]
      · simp [CreateContainer, Close, hi, h2, hn]
      · simp [CreateContainer, Close, hi, h2, hc]
      · simp [CreateContainer, Close, hi, h2]

/-- Witness for `c3_close_after_failed_create_amended` at the granted sample
cookie with a failing create and a failing removal. -/
theorem c3_close_after_failed_create_amended_witness :
    cGrant.image = some scCached ∧ cGrant.containerCreated = false ∧
    createMakesContainer (.fail "boom") = false ∧
    ((CreateContainer (.fail "boom") cGrant).2 ≠ CreateStatus.ok ∧
     (cGrant.poolId ≠ "" → cGrant.drv.poolEnabled = true →
       CloseCall.freePoolId cGrant.poolId ∈
         (Close (some (.other "remove failed"))
           (CreateContainer (.fail "boom") cGrant).1).calls) ∧
     (cGrant.netId ≠ "" →
       CloseCall.freeNetwork cGrant.netId ∈
         (Close (some (.other "remove failed"))
           (CreateContainer (.fail "boom") cGrant).1).calls) ∧
     (cGrant.drv.imgCacheEnabled = true →
       CloseCall.markFree scCached ∈
         (Close (some (.other "remove failed"))
           (CreateContainer (.fail "boom") cGrant).1).calls) ∧
     (Close (some (.other "remove failed"))
         (CreateContainer (.fail "boom") cGrant).1).err =
       some (DockerErr.other "remove failed")) :=
  ⟨rfl, rfl, rfl,
    c3_close_after_failed_create_amended cGrant (.fail "boom")
      (some (.other "remove failed")) scCached rfl rfl rfl⟩

/-- Claim C4: when inspection succeeds but the image declares a volume while
the driver forbids volumes, `ValidateImage` returns `(false, ErrImageWithVolume)`,
the image record is still captured on the cookie, and the cache receives an
`Update` call with that captured record during the invocation, before the
error is returned. -/
theorem c4_policy_violation_cache_update (c : Cookie) (img : ImageInspect)
    (vs : List String)
    (h0 : c.image = none)
    (hpol : c.drv.conf.imageEnableVolume = false)
    (hvs : img.configVolumes = some vs) (hne : vs ≠ [])
    (hcache : c.drv.imgCacheEnabled = true) :
    (ValidateImage (.ok img) c).needsPull = false ∧
    (ValidateImage (.ok img) c).err = some DockerErr.imageWithVolume ∧
    (ValidateImage (.ok img) c).cookie.image =
      some ⟨img.id, img.parent, img.repoTags, toUInt64 img.size⟩ ∧
    (ValidateImage (.ok img) c).cacheCalls =
      [CacheCall.update ⟨img.id, img.parent, img.repoTags, toUInt64 img.size⟩] := by
  have hsome : c.image.isSome = false := by rw [h0]; rfl
  have hlen : 0 < vs.length := List.length_pos.mpr hne
  refine ⟨?_, ?_, ?_, ?_⟩ <;> simp [ValidateImage, hsome, hpol, hvs, hcache, hlen]

/-- Witness for `c4_policy_violation_cache_update` at the sample cookie and
the volume-declaring image. -/
theorem c4_policy_violation_cache_update_witness :
    c0.image = none ∧ c0.drv.conf.imageEnableVolume = false ∧
    scImgVol.configVolumes = some ["/data"] ∧ (["/data"] : List String) ≠ [] ∧
    c0.drv.imgCacheEnabled = true ∧
    ((ValidateImage (.ok scImgVol) c0).needsPull = false ∧
     (ValidateImage (.ok scImgVol) c0).err = some DockerErr.imageWithVolume ∧
     (ValidateImage (.ok scImgVol) c0).cookie.image =
       some ⟨scImgVol.id, scImgVol.parent, scImgVol.repoTags, toUInt64 scImgVol.size⟩ ∧
     (ValidateImage (.ok scImgVol) c0).cacheCalls =
       [CacheCall.update ⟨scImgVol.id, scImgVol.parent, scImgVol.repoTags,
         toUInt64 scImgVol.size⟩]) :=
  ⟨rfl, rfl, rfl, by decide, rfl,
    c4_policy_violation_cache_update c0 scImgVol ["/data"] rfl rfl rfl (by decide) rfl⟩

/-- Claim C10: `Close` clears none of the cookie's fields — it returns the
cookie unchanged — so a second `Close` issues exactly the same collaborator
calls again: it re-frees the pool grant and the network grant, re-marks the
captured image record free in the cache, and re-attempts container removal
when the created-flag is set. -/
theorem c10_double_close (c : Cookie) (rm1 rm2 : Option DockerErr) :
    (Close rm1 c).cookie = c ∧
    (Close rm2 (Close rm1 c).cookie).calls = (Close rm1 c).calls ∧
    (c.poolId ≠ "" → c.drv.poolEnabled = true →
      CloseCall.freePoolId c.poolId ∈ (Close rm2 (Close rm1 c).cookie).calls) ∧
    (c.netId ≠ "" →
      CloseCall.freeNetwork c.netId ∈ (Close rm2 (Close rm1 c).cookie).calls) ∧
    (∀ i, c.image = some i → c.drv.imgCacheEnabled = true →
      CloseCall.markFree i ∈ (Close rm2 (Close rm1 c).cookie).calls) ∧
    (c.containerCreated = true →
      CloseCall.removeContainer c.task.id true true ∈
        (Close rm2 (Close rm1 c).cookie).calls) := by
  refine ⟨rfl, rfl, fun hp hpe => ?_, fun hn => ?_, fun i hi hc => ?_, fun hcr => ?_⟩
  · simp [Close, hp, hpe]
  · simp [Close, hn]
  · simp [Close, hi, hc]
  · simp [Close, hcr]

/-- A cookie holding every releasable resource: pool and network grants, a
captured image record, and a created container. -/
def cFull : Cookie :=
  { c0 with
    poolId := "pool-1"
    netId := "net-1"
    image := some scCached
    containerCreated := true }

/-- Witness for `c10_double_close` at the fully-loaded sample cookie. -/
theorem c10_double_close_witness :
    (Close (some (.other "rm1")) cFull).cookie = cFull ∧
    (Close none (Close (some (.other "rm1")) cFull).cookie).calls =
      (Close (some (.other "rm1")) cFull).calls ∧
    (cFull.poolId ≠ "" → cFull.drv.poolEnabled = true →
      CloseCall.freePoolId cFull.poolId ∈
        (Close none (Close (some (.other "rm1")) cFull).cookie).calls) ∧
    (cFull.netId ≠ "" →
      CloseCall.freeNetwork cFull.netId ∈
        (Close none (Close (some (.other "rm1")) cFull).cookie).calls) ∧
    (∀ i, cFull.image = some i → cFull.drv.imgCacheEnabled = true →
      CloseCall.markFree i ∈
        (Close none (Close (some (.other "rm1")) cFull).cookie).calls) ∧
    (cFull.containerCreated = true →
      CloseCall.removeContainer cFull.task.id true true ∈
        (Close none (Close (some (.other "rm1")) cFull).cookie).calls) :=
  c10_double_close cFull (some (.other "rm1")) none

end FnDocker
